import Mathlib

/-!
Verification of the wrapper application of Bear
(`source/intercept/source/report/wrapper/Application.cc`): a shallow
embedding of the dispatch resolver, the session/execution construction
and the command execution engine, followed by theorems about them.

External collaborators that are not part of the embedded translation unit
(the libsys process primitives, the flags parser, the rust result helpers
and the RPC clients) are modelled from the specification; each such
definition carries a doc comment saying so. Everything else is translated
directly from `Application.cc`.
-/

/-- Session: `{ destination }`, from `report/wrapper` data model. -/
structure Session where
  destination : String
deriving Repr, DecidableEq

/-- Execution: the fully specified launch plan (executable, arguments,
working directory, environment). Paths are modelled as strings. -/
structure Execution where
  executable : String
  arguments : List String
  working_directory : String
  environment : List (String × String)
deriving Repr, DecidableEq

/-- Modelled from the spec: `sys::ExitStatus` (libsys, outside the embedded
file) is the result of one wait operation on the child, a two-variant
value `Exited{code} | Signaled{signal}` (spec section 3). -/
inductive ExitStatus where
  | exited (code : Int)
  | signaled (sig : Int)
deriving Repr, DecidableEq

/-- Modelled from the spec: `ExitStatus::is_signaled()`. -/
def ExitStatus.is_signaled : ExitStatus → Bool
  | .signaled _ => true
  | .exited _ => false

/-- Modelled from the spec: `ExitStatus::is_exited()`. -/
def ExitStatus.is_exited : ExitStatus → Bool
  | .exited _ => true
  | .signaled _ => false

/-- Modelled from the spec: `ExitStatus::code()`, an optional value that is
present exactly when the child exited normally. -/
def ExitStatus.code : ExitStatus → Option Int
  | .exited c => some c
  | .signaled _ => none

/-- Modelled from the spec: `ExitStatus::signal()`, an optional value that
is present exactly when the child was signaled. -/
def ExitStatus.signal : ExitStatus → Option Int
  | .exited _ => none
  | .signaled s => some s

/-- Event: the tagged lifecycle variants produced by `wr::EventFactory`
(`start`, `signal`, `terminate`). -/
inductive Event where
  | start (pid : Nat) (ppid : Nat) (execution : Execution)
  | signal (sig : Int)
  | terminate (code : Int)
deriving Repr, DecidableEq

/-- The generic failure code substituted when the final status carries no
exit code (`EXIT_FAILURE` in the source). -/
def EXIT_FAILURE : Int := 1

/-- The configuration handed to `sys::Process::Builder` before spawning:
executable, added arguments and environment, read from a (resolved)
Execution in `Command::execute`. -/
structure SpawnRequest where
  executable : String
  arguments : List String
  environment : List (String × String)
deriving Repr, DecidableEq

/-- Command: owns one Session and one Execution (`wr::Command`). -/
structure Command where
  session_ : Session
  execution_ : Execution
deriving Repr, DecidableEq

/-- Modelled from the spec: the behaviour of the external collaborators
during one run of `Command::execute` — the supervisor's answer to
`resolve`, the OS answer to a spawn request, this process's parent pid,
and the successive results of the blocking `wait` calls (a finite trace;
a run whose loop consumes the whole trace without returning is a run
that has not terminated yet). -/
structure RunEnv where
  resolve : Execution → Except String Execution
  spawn : SpawnRequest → Except String Nat
  ppid : Nat
  waits : List (Except String ExitStatus)

/-- The observable outcome of one run of `Command::execute`: the events
reported to the interceptor client in order, the spawn requests handed to
the process builder, the status with which the wait loop returned (if it
did), the returned value (none while the loop has not returned), and
whether the signal-forwarding guard was released. -/
structure RunTrace where
  events : List Event
  spawnRequests : List SpawnRequest
  finalStatus : Option ExitStatus
  result : Option (Except String Int)
  guardReleased : Bool
deriving Repr

/-- One round's reported event, from `Command::execute` lines 154-158:
`exit.is_signaled() ? signal(exit.signal().value()) : terminate(exit.code().value())`. -/
def waitRound (s : ExitStatus) : Event :=
  if s.is_signaled then Event.signal (s.signal.getD 0) else Event.terminate (s.code.getD 0)

/-- The wait loop of `Command::execute` (lines 152-163) over a trace of
wait results: a failed wait reports nothing and the loop continues; a
successful wait reports its event and the loop returns exactly when the
status `is_exited`. Returns the reported events and the returned status
(none when the trace is exhausted without returning). -/
def waitLoop : List (Except String ExitStatus) → List Event × Option ExitStatus
  | [] => ([], none)
  | Except.error _ :: rest => waitLoop rest
  | Except.ok s :: rest =>
    if s.is_exited then ([waitRound s], some s)
    else
      let r := waitLoop rest
      (waitRound s :: r.1, r.2)

/-- The builder configuration read from an Execution in `Command::execute`
(lines 137-139): `Builder(execution.executable).add_arguments(execution.arguments).set_environment(execution.environment)`. -/
def reqOf (ex : Execution) : SpawnRequest :=
  { executable := ex.executable
  , arguments := ex.arguments
  , environment := ex.environment }

/-- `wr::Command::execute` (lines 130-168): resolve, spawn from the
resolved execution, report `Start` on success, run the guarded wait loop,
and map the final status through `code().value_or(EXIT_FAILURE)`. -/
def Command.execute (cmd : Command) (env : RunEnv) : RunTrace :=
  match env.resolve cmd.execution_ with
  | Except.error e =>
    { events := [], spawnRequests := [], finalStatus := none
    , result := some (Except.error e), guardReleased := false }
  | Except.ok execution =>
    match env.spawn (reqOf execution) with
    | Except.error e =>
      { events := [], spawnRequests := [reqOf execution], finalStatus := none
      , result := some (Except.error e), guardReleased := false }
    | Except.ok pid =>
      { events := Event.start pid env.ppid execution :: (waitLoop env.waits).1
      , spawnRequests := [reqOf execution]
      , finalStatus := (waitLoop env.waits).2
      , result :=
          match (waitLoop env.waits).2 with
          | none => none
          | some s => some (Except.ok (s.code.getD EXIT_FAILURE))
      , guardReleased := ((waitLoop env.waits).2).isSome }

/-- The file-name component of a path (`fs::path::filename`): the
longest suffix of the path that contains no directory separator. -/
def filename (p : String) : String :=
  String.mk ((p.toList.reverse.takeWhile fun c => c != '/').reverse)

/-- `is_wrapper_call` (lines 56-63): with at least one argument, the run is
a wrapper call exactly when argument 0's file name differs from
`"wrapper"`; with no arguments it is not a wrapper call. -/
def is_wrapper_call (argv : List String) : Bool :=
  match argv with
  | [] => false
  | cmd :: _ => filename cmd != "wrapper"

/-- Modelled from the spec: `wr::env::KEY_DESTINATION` (declared in
`report/wrapper/Environment.h`, outside the embedded file), the required
environment variable naming the report destination. -/
def KEY_DESTINATION : String := "INTERCEPT_REPORT_DESTINATION"

/-- `Wrapper::make_session` (lines 67-73): look the destination variable
up in the environment; absence is the error `"Unknown destination."`. -/
def Wrapper.make_session (environment : List (String × String)) : Except String Session :=
  match environment.lookup KEY_DESTINATION with
  | none => Except.error "Unknown destination."
  | some v => Except.ok { destination := v }

/-- `Wrapper::make_execution` (lines 83-92): program and arguments come
verbatim from argv, the working directory from the fallible `get_cwd`
(passed here as the external collaborator's answer), the environment is
the inherited one; only the cwd lookup can fail. -/
def Wrapper.make_execution (argv : List String) (environment : List (String × String))
    (cwd : Except String String) : Except String Execution :=
  cwd.map fun working_dir =>
    { executable := argv.headD ""
    , arguments := argv
    , working_directory := working_dir
    , environment := environment }

/-- Modelled from the spec: `flags::Arguments` (the parsed command line,
outside the embedded file) offers independently fallible lookups for
string flags, string-list flags and boolean flags. -/
structure Arguments where
  as_string : String → Except String String
  as_string_list : String → Except String (List String)
  as_bool : String → Except String Bool

/-- Modelled from the spec: the `wr::DESTINATION` flag name
(`report/wrapper/Flags.h`, outside the embedded file). -/
def DESTINATION : String := "--destination"

/-- Modelled from the spec: the `wr::EXECUTE` flag name. -/
def EXECUTE : String := "--execute"

/-- Modelled from the spec: the `wr::COMMAND` flag name. -/
def COMMAND : String := "--"

/-- Modelled from the spec: `rust::merge` on two results — the merged
tuple exists only when both succeed, otherwise the first failure wins. -/
def merge2 {α β : Type} : Except String α → Except String β → Except String (α × β)
  | Except.ok a, Except.ok b => Except.ok (a, b)
  | Except.error e, _ => Except.error e
  | _, Except.error e => Except.error e

/-- Modelled from the spec: `rust::merge` on three results. -/
def merge3 {α β γ : Type} :
    Except String α → Except String β → Except String γ → Except String (α × β × γ)
  | Except.ok a, Except.ok b, Except.ok c => Except.ok (a, b, c)
  | Except.error e, _, _ => Except.error e
  | _, Except.error e, _ => Except.error e
  | _, _, Except.error e => Except.error e

/-- `Supervisor::make_session` (lines 97-102): the destination flag's
value, mapped into a Session. -/
def Supervisor.make_session (args : Arguments) : Except String Session :=
  (args.as_string DESTINATION).map fun destination => { destination := destination }

/-- `Supervisor::make_execution` (lines 104-118): three independently
fallible lookups (program flag, command-list flag, cwd) merged into an
Execution exactly when all three succeed. -/
def Supervisor.make_execution (args : Arguments) (environment : List (String × String))
    (cwd : Except String String) : Except String Execution :=
  let program := args.as_string EXECUTE
  let arguments := args.as_string_list COMMAND
  let working_dir := cwd
  (merge3 program arguments working_dir).map fun t =>
    { executable := t.1
    , arguments := t.2.1
    , working_directory := t.2.2
    , environment := environment }

/-- `Application::from_envs` (lines 201-211): merge the wrapper-path
session and execution into a Command. -/
def Application.from_envs (argv : List String) (envp : List (String × String))
    (cwd : Except String String) : Except String Command :=
  let environment := envp
  let session := Wrapper.make_session environment
  let execution := Wrapper.make_execution argv environment cwd
  (merge2 session execution).map fun t => { session_ := t.1, execution_ := t.2 }

/-- `Application::from_args` (lines 213-223): merge the supervisor-path
session and execution into a Command. -/
def Application.from_args (args : Arguments) (envp : List (String × String))
    (cwd : Except String String) : Except String Command :=
  let environment := envp
  let session := Supervisor.make_session args
  let execution := Supervisor.make_execution args environment cwd
  (merge2 session execution).map fun t => { session_ := t.1, execution_ := t.2 }

/-- `Application::command` (lines 177-199): dispatch on `is_wrapper_call`;
the wrapper path builds from the environment, the supervisor path parses
flags (the external parser's answer is `parsed`) and builds from them.
Logging is out of scope. -/
def Application.command (argv : List String) (envp : List (String × String))
    (cwd : Except String String) (parsed : Except String Arguments) :
    Except String Command :=
  if is_wrapper_call argv then
    Application.from_envs argv envp cwd
  else
    parsed.bind fun args => Application.from_args args envp cwd

/-- Run a construction result: a construction error produces no events and
no spawn requests; a constructed Command is executed. -/
def runCommand (c : Except String Command) (renv : RunEnv) : RunTrace :=
  match c with
  | Except.error e =>
    { events := [], spawnRequests := [], finalStatus := none
    , result := some (Except.error e), guardReleased := false }
  | Except.ok cmd => cmd.execute renv

/-- The signal numbers of the successful signaled wait rounds before the
first exited round of a wait trace. -/
def signalsBeforeExit : List (Except String ExitStatus) → List Int
  | [] => []
  | Except.error _ :: rest => signalsBeforeExit rest
  | Except.ok (ExitStatus.signaled s) :: rest => s :: signalsBeforeExit rest
  | Except.ok (ExitStatus.exited _) :: _ => []

/-! Helper lemmas about the wait loop and the execution engine. -/

theorem waitLoop_error_cons (e : String) (ws : List (Except String ExitStatus)) :
    waitLoop (Except.error e :: ws) = waitLoop ws := rfl

theorem waitLoop_shape (ws : List (Except String ExitStatus)) (s : ExitStatus)
    (h : (waitLoop ws).2 = some s) :
    ∃ c, s = ExitStatus.exited c ∧
      (waitLoop ws).1 = (signalsBeforeExit ws).map Event.signal ++ [Event.terminate c] := by
  induction ws with
  | nil => simp [waitLoop] at h
  | cons w rest ih =>
    cases w with
    | error e =>
      rw [waitLoop_error_cons] at h
      obtain ⟨c, hs, hev⟩ := ih h
      exact ⟨c, hs, by rw [waitLoop_error_cons, hev]; rfl⟩
    | ok s' =>
      cases s' with
      | exited c =>
        simp [waitLoop, ExitStatus.is_exited] at h
        subst h
        refine ⟨c, rfl, ?_⟩
        simp [waitLoop, ExitStatus.is_exited, waitRound, ExitStatus.is_signaled,
          ExitStatus.code, signalsBeforeExit]
      | signaled g =>
        simp only [waitLoop, ExitStatus.is_exited, Bool.false_eq_true, if_false] at h
        obtain ⟨c, hs, hev⟩ := ih h
        refine ⟨c, hs, ?_⟩
        simp only [waitLoop, ExitStatus.is_exited, Bool.false_eq_true, if_false,
          signalsBeforeExit, List.map_cons, List.cons_append]
        rw [hev]
        simp [waitRound, ExitStatus.is_signaled, ExitStatus.signal]

theorem execute_resolve_error (cmd : Command) (env : RunEnv) (e : String)
    (h : env.resolve cmd.execution_ = Except.error e) :
    cmd.execute env =
      { events := [], spawnRequests := [], finalStatus := none
      , result := some (Except.error e), guardReleased := false } := by
  unfold Command.execute
  rw [h]

theorem execute_spawn_error (cmd : Command) (env : RunEnv) (ex : Execution) (e : String)
    (hres : env.resolve cmd.execution_ = Except.ok ex)
    (hsp : env.spawn (reqOf ex) = Except.error e) :
    cmd.execute env =
      { events := [], spawnRequests := [reqOf ex], finalStatus := none
      , result := some (Except.error e), guardReleased := false } := by
  simp only [Command.execute, hres, hsp]

theorem execute_spawned (cmd : Command) (env : RunEnv) (ex : Execution) (pid : Nat)
    (hres : env.resolve cmd.execution_ = Except.ok ex)
    (hsp : env.spawn (reqOf ex) = Except.ok pid) :
    cmd.execute env =
      { events := Event.start pid env.ppid ex :: (waitLoop env.waits).1
      , spawnRequests := [reqOf ex]
      , finalStatus := (waitLoop env.waits).2
      , result :=
          match (waitLoop env.waits).2 with
          | none => none
          | some s => some (Except.ok (s.code.getD EXIT_FAILURE))
      , guardReleased := ((waitLoop env.waits).2).isSome } := by
  simp only [Command.execute, hres, hsp]

theorem execute_finalStatus_inv (cmd : Command) (env : RunEnv) (s : ExitStatus)
    (h : (cmd.execute env).finalStatus = some s) :
    ∃ ex pid, env.resolve cmd.execution_ = Except.ok ex ∧
      env.spawn (reqOf ex) = Except.ok pid ∧ (waitLoop env.waits).2 = some s := by
  cases hres : env.resolve cmd.execution_ with
  | error e => rw [execute_resolve_error cmd env e hres] at h; simp at h
  | ok ex =>
    cases hsp : env.spawn (reqOf ex) with
    | error e => rw [execute_spawn_error cmd env ex e hres hsp] at h; simp at h
    | ok pid =>
      rw [execute_spawned cmd env ex pid hres hsp] at h
      exact ⟨ex, pid, rfl, hsp, h⟩

/-! Concrete runs used by the witnesses. -/

/-- A sample launch plan (spec section 8's example scenario). -/
def sampleExecution : Execution :=
  { executable := "/bin/echo", arguments := ["echo", "hi"]
  , working_directory := "/tmp", environment := [] }

/-- A rewritten launch plan, as the supervisor may return. -/
def rewrittenExecution : Execution :=
  { executable := "/usr/bin/echo", arguments := ["echo", "hi"]
  , working_directory := "/tmp", environment := [("PATH", "/usr/bin")] }

/-- A sample command. -/
def sampleCommand : Command :=
  { session_ := { destination := "/tmp/sess" }, execution_ := sampleExecution }

/-- Collaborators for a run where the child exits with code 7. -/
def envExit7 : RunEnv :=
  { resolve := fun e => Except.ok e, spawn := fun _ => Except.ok 42
  , ppid := 10, waits := [Except.ok (ExitStatus.exited 7)] }

/-- Collaborators for a run with a signal delivery, an interrupted wait,
then a normal exit with code 7. -/
def envSignalThenExit : RunEnv :=
  { resolve := fun e => Except.ok e, spawn := fun _ => Except.ok 42
  , ppid := 10
  , waits := [Except.ok (ExitStatus.signaled 15), Except.error "EINTR",
              Except.ok (ExitStatus.exited 7)] }

/-- Collaborators for a run whose first wait fails and whose second wait
sees a normal exit with code 0. -/
def envWaitError : RunEnv :=
  { resolve := fun e => Except.ok e, spawn := fun _ => Except.ok 42
  , ppid := 10
  , waits := [Except.error "wait failed", Except.ok (ExitStatus.exited 0)] }

/-- Collaborators for a run where the supervisor denies the execution. -/
def envResolveError : RunEnv :=
  { resolve := fun _ => Except.error "authorization failed"
  , spawn := fun _ => Except.ok 42, ppid := 10, waits := [] }

/-- Collaborators for a run where spawning fails. -/
def envSpawnError : RunEnv :=
  { resolve := fun e => Except.ok e, spawn := fun _ => Except.error "ENOENT"
  , ppid := 10, waits := [] }

/-- Collaborators for a run where the supervisor rewrites the execution. -/
def envRewrite : RunEnv :=
  { resolve := fun _ => Except.ok rewrittenExecution
  , spawn := fun _ => Except.ok 42, ppid := 10
  , waits := [Except.ok (ExitStatus.exited 0)] }

/-- C1: for every run in which the wait loop completes with a final
status, `Command.execute` returns the child's own exit code when the
status carries one, and `EXIT_FAILURE` when the status carries no exit
code. -/
theorem execute_exit_code_of_final_status (cmd : Command) (env : RunEnv) (s : ExitStatus)
    (h : (cmd.execute env).finalStatus = some s) :
    (cmd.execute env).result = some (Except.ok (s.code.getD EXIT_FAILURE))
    ∧ (∀ c, s = ExitStatus.exited c → (cmd.execute env).result = some (Except.ok c))
    ∧ (s.code = none → (cmd.execute env).result = some (Except.ok EXIT_FAILURE)) := by
  obtain ⟨ex, pid, hres, hsp, hloop⟩ := execute_finalStatus_inv cmd env s h
  have hmain : (cmd.execute env).result = some (Except.ok (s.code.getD EXIT_FAILURE)) := by
    rw [execute_spawned cmd env ex pid hres hsp]
    simp [hloop]
  refine ⟨hmain, ?_, ?_⟩
  · intro c hc
    subst hc
    simpa [ExitStatus.code] using hmain
  · intro hc
    rw [hc] at hmain
    simpa using hmain

/-- C1 witness: a child exiting with code 7 yields result 7. -/
theorem execute_exit_code_of_final_status_witness :
    (sampleCommand.execute envExit7).result = some (Except.ok 7) :=
  (execute_exit_code_of_final_status sampleCommand envExit7 (ExitStatus.exited 7) rfl).2.1 7 rfl

/-- C2: for every run in which the wait loop completes, the reported
events are exactly one `Start`, then one `Signal` per successful signaled
wait round, then exactly one `Terminate`, in that order. -/
theorem execute_event_sequence (cmd : Command) (env : RunEnv) (s : ExitStatus)
    (h : (cmd.execute env).finalStatus = some s) :
    ∃ pid ex c,
      env.resolve cmd.execution_ = Except.ok ex ∧
      (cmd.execute env).events
        = Event.start pid env.ppid ex
            :: (signalsBeforeExit env.waits).map Event.signal
            ++ [Event.terminate c] := by
  obtain ⟨ex, pid, hres, hsp, hloop⟩ := execute_finalStatus_inv cmd env s h
  obtain ⟨c, hs, hev⟩ := waitLoop_shape env.waits s hloop
  refine ⟨pid, ex, c, hres, ?_⟩
  rw [execute_spawned cmd env ex pid hres hsp]
  simp [hev]

/-- C2 witness: a run with one intermediate signal and a final exit
reports Start, Signal, Terminate. -/
theorem execute_event_sequence_witness :
    ∃ pid ex c,
      envSignalThenExit.resolve sampleCommand.execution_ = Except.ok ex ∧
      (sampleCommand.execute envSignalThenExit).events
        = Event.start pid envSignalThenExit.ppid ex
            :: (signalsBeforeExit envSignalThenExit.waits).map Event.signal
            ++ [Event.terminate c] :=
  execute_event_sequence sampleCommand envSignalThenExit (ExitStatus.exited 7) rfl

/-- C3 counterexample: a failing wait round is not terminal — with waits
`[error, exited 0]` the result is the later exit code 0, not the wait
error. -/
theorem wait_error_not_terminal_cex :
    (sampleCommand.execute envWaitError).result = some (Except.ok 0)
    ∧ (sampleCommand.execute envWaitError).result ≠ some (Except.error "wait failed") := by
  constructor
  · rfl
  · intro hx
    rw [show (sampleCommand.execute envWaitError).result = some (Except.ok 0) from rfl] at hx
    injection hx with hx2
    cases hx2

/-- C3 amended: a failed wait round reports nothing and the loop retries
the wait; once the child is spawned, `execute` never returns an error (the
loop leaves only with a successful exited status), and the guard is
released exactly when the loop returns. -/
theorem wait_error_retries (e : String) (ws : List (Except String ExitStatus))
    (cmd : Command) (env : RunEnv) (ex : Execution) (pid : Nat)
    (hres : env.resolve cmd.execution_ = Except.ok ex)
    (hsp : env.spawn (reqOf ex) = Except.ok pid) :
    waitLoop (Except.error e :: ws) = waitLoop ws
    ∧ (∀ e2, (cmd.execute env).result ≠ some (Except.error e2))
    ∧ (cmd.execute env).guardReleased = ((cmd.execute env).finalStatus).isSome := by
  refine ⟨rfl, ?_, ?_⟩
  · intro e2 hbad
    rw [execute_spawned cmd env ex pid hres hsp] at hbad
    rcases hl : (waitLoop env.waits).2 with _ | s
    · rw [hl] at hbad
      simp at hbad
    · rw [hl] at hbad
      simp at hbad
  · rw [execute_spawned cmd env ex pid hres hsp]

/-- C3 witness: the amended statement at a concrete run. -/
theorem wait_error_retries_witness :
    waitLoop (Except.error "EINTR" :: envExit7.waits) = waitLoop envExit7.waits :=
  (wait_error_retries "EINTR" envExit7.waits sampleCommand envExit7 sampleExecution 42
    rfl rfl).1

/-- C4: a resolve failure is terminal — no spawn request is issued, no
event is reported and the error is the result; a spawn failure is
likewise terminal and reports no event. -/
theorem resolve_or_spawn_failure_no_events (cmd : Command) (env : RunEnv) (e : String) :
    (env.resolve cmd.execution_ = Except.error e →
      cmd.execute env =
        { events := [], spawnRequests := [], finalStatus := none
        , result := some (Except.error e), guardReleased := false })
    ∧ (∀ ex, env.resolve cmd.execution_ = Except.ok ex →
        env.spawn (reqOf ex) = Except.error e →
        (cmd.execute env).events = [] ∧ (cmd.execute env).result = some (Except.error e)) := by
  constructor
  · intro h
    exact execute_resolve_error cmd env e h
  · intro ex hres hsp
    rw [execute_spawn_error cmd env ex e hres hsp]
    exact ⟨rfl, rfl⟩

/-- C4 witness: a denied resolve reports nothing, spawns nothing, and the
error is the result. -/
theorem resolve_or_spawn_failure_no_events_witness :
    sampleCommand.execute envResolveError =
      { events := [], spawnRequests := [], finalStatus := none
      , result := some (Except.error "authorization failed"), guardReleased := false } :=
  (resolve_or_spawn_failure_no_events sampleCommand envResolveError "authorization failed").1 rfl

/-- C7: the child is spawned from the resolved execution's executable,
arguments and environment, and the `Start` event carries the child's pid,
this process's parent pid and the resolved execution. -/
theorem spawn_uses_resolved_execution (cmd : Command) (env : RunEnv) (ex : Execution) (pid : Nat)
    (hres : env.resolve cmd.execution_ = Except.ok ex)
    (hsp : env.spawn (reqOf ex) = Except.ok pid) :
    (cmd.execute env).spawnRequests = [reqOf ex]
    ∧ ∃ evs, (cmd.execute env).events = Event.start pid env.ppid ex :: evs := by
  rw [execute_spawned cmd env ex pid hres hsp]
  exact ⟨rfl, ⟨(waitLoop env.waits).1, rfl⟩⟩

/-- C7 witness: with a rewriting supervisor the spawn request comes from
the rewritten execution, which differs from the command's original one. -/
theorem spawn_uses_resolved_execution_witness :
    (sampleCommand.execute envRewrite).spawnRequests = [reqOf rewrittenExecution]
    ∧ reqOf rewrittenExecution ≠ reqOf sampleCommand.execution_ := by
  constructor
  · exact (spawn_uses_resolved_execution sampleCommand envRewrite rewrittenExecution 42
      rfl rfl).1
  · decide

/-! Dispatch and construction claims. -/

theorem merge2_error_left {α β : Type} (e : String) (y : Except String β) :
    merge2 (Except.error e : Except String α) y = Except.error e := by
  cases y <;> rfl

/-- A parsed-flags value with destination, executable and command set
(for witnesses). -/
def argsOk : Arguments :=
  { as_string := fun k =>
      if k = DESTINATION then Except.ok "/tmp/sess"
      else if k = EXECUTE then Except.ok "/bin/echo"
      else Except.error "unknown flag"
  , as_string_list := fun k =>
      if k = COMMAND then Except.ok ["echo", "hi"] else Except.error "unknown flag"
  , as_bool := fun _ => Except.error "unknown flag" }

/-- C5: with at least one argument, a first argument whose file name is
`"wrapper"` takes the flag-parsing (supervisor-call) construction path,
and any other file name takes the environment-based (wrapper-call)
construction path. -/
theorem mode_dispatch_by_basename (a : String) (rest : List String)
    (envp : List (String × String)) (cwd : Except String String)
    (parsed : Except String Arguments) :
    (filename a = "wrapper" →
      Application.command (a :: rest) envp cwd parsed
        = parsed.bind fun args => Application.from_args args envp cwd)
    ∧ (filename a ≠ "wrapper" →
      Application.command (a :: rest) envp cwd parsed
        = Application.from_envs (a :: rest) envp cwd) := by
  constructor
  · intro h
    simp [Application.command, is_wrapper_call, h]
  · intro h
    simp [Application.command, is_wrapper_call, h]

/-- C5 witness: invoked as `wrapper`, the supervisor-call path is taken. -/
theorem mode_dispatch_by_basename_witness :
    Application.command ["/usr/libexec/bear/wrapper"] [] (Except.ok "/tmp") (Except.ok argsOk)
      = (Except.ok argsOk).bind fun args => Application.from_args args [] (Except.ok "/tmp") :=
  (mode_dispatch_by_basename "/usr/libexec/bear/wrapper" [] [] (Except.ok "/tmp")
    (Except.ok argsOk)).1 rfl

/-- C6: with no binding for the destination variable, wrapper-call
construction fails with `"Unknown destination."`, no Command is built,
and no event is reported and no spawn request issued. -/
theorem missing_destination_fails (envp : List (String × String))
    (h : envp.lookup KEY_DESTINATION = none) :
    Wrapper.make_session envp = Except.error "Unknown destination."
    ∧ (∀ argv cwd,
        Application.from_envs argv envp cwd = Except.error "Unknown destination.")
    ∧ (∀ argv cwd renv,
        (runCommand (Application.from_envs argv envp cwd) renv).events = []
        ∧ (runCommand (Application.from_envs argv envp cwd) renv).spawnRequests = []) := by
  have hs : Wrapper.make_session envp = Except.error "Unknown destination." := by
    simp [Wrapper.make_session, h]
  have hf : ∀ argv cwd,
      Application.from_envs argv envp cwd = Except.error "Unknown destination." := by
    intro argv cwd
    simp [Application.from_envs, hs, merge2_error_left, Except.map]
  refine ⟨hs, hf, ?_⟩
  intro argv cwd renv
  rw [hf argv cwd]
  exact ⟨rfl, rfl⟩

/-- C6 witness: an environment with only PATH set yields the error. -/
theorem missing_destination_fails_witness :
    Wrapper.make_session [("PATH", "/bin")] = Except.error "Unknown destination." :=
  (missing_destination_fails [("PATH", "/bin")] rfl).1

/-- C8: on the supervisor path the three lookups (program flag, command
flag, cwd) merge into an Execution exactly when all three succeed; on the
wrapper path program and arguments come verbatim from argv and only the
cwd lookup can fail, and the Execution exists exactly when it succeeds;
either failure yields no Command, hence no spawn request. -/
theorem execution_merge_short_circuit (args : Arguments)
    (environment : List (String × String)) (argv : List String)
    (cwd : Except String String) :
    ((∃ ex, Supervisor.make_execution args environment cwd = Except.ok ex)
        ↔ (∃ p, args.as_string EXECUTE = Except.ok p)
          ∧ (∃ l, args.as_string_list COMMAND = Except.ok l)
          ∧ (∃ w, cwd = Except.ok w))
    ∧ ((∃ ex, Wrapper.make_execution argv environment cwd = Except.ok ex)
        ↔ (∃ w, cwd = Except.ok w))
    ∧ (∀ e renv, Supervisor.make_execution args environment cwd = Except.error e →
        (runCommand (Application.from_args args environment cwd) renv).spawnRequests = [])
    ∧ (∀ e renv, Wrapper.make_execution argv environment cwd = Except.error e →
        (runCommand (Application.from_envs argv environment cwd) renv).spawnRequests = []) := by
  refine ⟨?_, ?_, ?_, ?_⟩
  · cases hp : args.as_string EXECUTE with
    | error e =>
      simp [Supervisor.make_execution, merge3, hp, Except.map]
    | ok p =>
      cases hl : args.as_string_list COMMAND with
      | error e =>
        simp [Supervisor.make_execution, merge3, hp, hl, Except.map]
      | ok l =>
        cases hw : cwd with
        | error e =>
          simp [Supervisor.make_execution, merge3, hp, hl, hw, Except.map]
        | ok w =>
          simp [Supervisor.make_execution, merge3, hp, hl, hw, Except.map]
  · cases hw : cwd with
    | error e => simp [Wrapper.make_execution, hw, Except.map]
    | ok w => simp [Wrapper.make_execution, hw, Except.map]
  · intro e renv h
    cases hs : Supervisor.make_session args with
    | error e2 =>
      simp [runCommand, Application.from_args, hs, merge2_error_left, Except.map]
    | ok sess =>
      simp [runCommand, Application.from_args, hs, h, merge2, Except.map]
  · intro e renv h
    cases hs : Wrapper.make_session environment with
    | error e2 =>
      simp [runCommand, Application.from_envs, hs, merge2_error_left, Except.map]
    | ok sess =>
      simp [runCommand, Application.from_envs, hs, h, merge2, Except.map]

/-- C8 witness: with all three lookups succeeding, the supervisor-path
Execution exists. -/
theorem execution_merge_short_circuit_witness :
    ∃ ex, Supervisor.make_execution argsOk [] (Except.ok "/tmp") = Except.ok ex :=
  (execution_merge_short_circuit argsOk [] ["cc"] (Except.ok "/tmp")).1.mpr
    ⟨⟨"/bin/echo", rfl⟩, ⟨["echo", "hi"], rfl⟩, ⟨"/tmp", rfl⟩⟩

/-- An environment binding the destination variable to the empty string. -/
def emptyDestinationEnv : List (String × String) := [(KEY_DESTINATION, "")]

/-- The Command the wrapper path builds from `emptyDestinationEnv`. -/
def emptyDestinationCommand : Command :=
  { session_ := { destination := "" }
  , execution_ :=
    { executable := "cc", arguments := ["cc"], working_directory := "/tmp"
    , environment := emptyDestinationEnv } }

/-- C9 counterexample: a Command can exist with an empty destination —
binding the destination variable to the empty string makes wrapper-call
construction succeed with `Session.destination = ""`. -/
theorem session_destination_nonempty_cex :
    Application.from_envs ["cc"] emptyDestinationEnv (Except.ok "/tmp")
      = Except.ok emptyDestinationCommand
    ∧ emptyDestinationCommand.session_.destination = "" :=
  ⟨rfl, rfl⟩

/-- C9 amended: once a Command exists, its destination is exactly the
value the destination lookup returned — the lookup succeeded, but the
bound value (and hence the destination) may be the empty string. -/
theorem command_implies_destination_bound (argv : List String)
    (envp : List (String × String)) (cwd : Except String String)
    (args : Arguments) (c1 c2 : Command) :
    (Application.from_envs argv envp cwd = Except.ok c1 →
      ∃ v, envp.lookup KEY_DESTINATION = some v ∧ c1.session_.destination = v)
    ∧ (Application.from_args args envp cwd = Except.ok c2 →
      ∃ v, args.as_string DESTINATION = Except.ok v ∧ c2.session_.destination = v) := by
  constructor
  · intro h
    cases hl : envp.lookup KEY_DESTINATION with
    | none =>
      rw [(missing_destination_fails envp hl).2.1 argv cwd] at h
      cases h
    | some v =>
      cases hc : cwd with
      | error e =>
        simp [Application.from_envs, Wrapper.make_session, Wrapper.make_execution,
          merge2, Except.map, hl, hc] at h
      | ok w =>
        simp [Application.from_envs, Wrapper.make_session, Wrapper.make_execution,
          merge2, Except.map, hl, hc] at h
        exact ⟨v, rfl, by rw [← h]⟩
  · intro h
    cases hd : args.as_string DESTINATION with
    | error e =>
      simp [Application.from_args, Supervisor.make_session, Except.map, hd,
        merge2_error_left] at h
    | ok v =>
      cases hex : Supervisor.make_execution args envp cwd with
      | error e =>
        simp [Application.from_args, Supervisor.make_session, Except.map, hd,
          merge2, hex] at h
      | ok ex =>
        simp [Application.from_args, Supervisor.make_session, Except.map, hd,
          merge2, hex] at h
        exact ⟨v, rfl, by rw [← h]⟩

/-- A Command built by the wrapper path for the C9 witness. -/
def boundDestinationCommand : Command :=
  { session_ := { destination := "/tmp/sess" }
  , execution_ :=
    { executable := "cc", arguments := ["cc"], working_directory := "/tmp"
    , environment := [(KEY_DESTINATION, "/tmp/sess")] } }

/-- C9 witness: a constructed Command's destination is the looked-up
value. -/
theorem command_implies_destination_bound_witness :
    ∃ v, ([(KEY_DESTINATION, "/tmp/sess")] : List (String × String)).lookup KEY_DESTINATION
        = some v
      ∧ boundDestinationCommand.session_.destination = v :=
  (command_implies_destination_bound ["cc"] [(KEY_DESTINATION, "/tmp/sess")]
    (Except.ok "/tmp") argsOk boundDestinationCommand boundDestinationCommand).1 rfl

/-- C10: with an empty argument vector, mode detection classifies the run
as a supervisor call and the flag-parsing construction path is taken. -/
theorem empty_argv_supervisor_call :
    is_wrapper_call [] = false
    ∧ ∀ (envp : List (String × String)) (cwd : Except String String)
        (parsed : Except String Arguments),
        Application.command [] envp cwd parsed
          = parsed.bind fun args => Application.from_args args envp cwd :=
  ⟨rfl, fun _ _ _ => rfl⟩
